import Mathlib

/-!
Verification of the HTTP transport layer (src/api/base_api.py) and the
streaming-chunk decoder (src/api/chat_api.py) of the chat-completion test
client.  Each Python function is shallowly embedded as an executable Lean
definition; the theorems at the end settle the specification claims.
-/

/-- Structured wire-format value (the result of Python json.loads):
null, booleans, numbers (kept as their source lexeme), strings, arrays
and objects with insertion-ordered fields. -/
inductive Json where
  | null : Json
  | bool (b : Bool) : Json
  | num (lexeme : String) : Json
  | str (s : String) : Json
  | arr (elems : List Json) : Json
  | obj (fields : List (String × Json)) : Json

/-- Whitespace skipping of the wire-format reader. -/
def skipWs : List Char → List Char
  | c :: cs => if c = ' ' ∨ c = '\t' ∨ c = '\n' ∨ c = '\r' then skipWs cs else c :: cs
  | [] => []

/-- Single-character escapes of the wire-format string grammar. -/
def escapeChar : Char → Option Char
  | '"' => some '"'
  | '\\' => some '\\'
  | '/' => some '/'
  | 'b' => some (Char.ofNat 8)
  | 'f' => some (Char.ofNat 12)
  | 'n' => some '\n'
  | 'r' => some '\r'
  | 't' => some '\t'
  | _ => none

/-- Value of a hexadecimal digit, if the character is one. -/
def hexVal (c : Char) : Option Nat :=
  if '0' ≤ c ∧ c ≤ '9' then some (c.toNat - '0'.toNat)
  else if 'a' ≤ c ∧ c ≤ 'f' then some (c.toNat - 'a'.toNat + 10)
  else if 'A' ≤ c ∧ c ≤ 'F' then some (c.toNat - 'A'.toNat + 10)
  else none

/-- Body of a wire-format string literal, after the opening quote;
returns the decoded characters (reversed accumulator) and the rest. -/
def parseStringBody (fuel : Nat) (cs : List Char) (acc : List Char) :
    Option (String × List Char) :=
  match fuel, cs with
  | 0, _ => none
  | _, [] => none
  | Nat.succ fuel, c :: rest =>
    if c = '"' then some (String.mk acc.reverse, rest)
    else if c = '\\' then
      match rest with
      | 'u' :: a :: b :: c2 :: d :: rest2 =>
        match hexVal a, hexVal b, hexVal c2, hexVal d with
        | some ha, some hb, some hc, some hd =>
          parseStringBody fuel rest2
            (Char.ofNat (((ha * 16 + hb) * 16 + hc) * 16 + hd) :: acc)
        | _, _, _, _ => none
      | e :: rest2 =>
        match escapeChar e with
        | some ch => parseStringBody fuel rest2 (ch :: acc)
        | none => none
      | [] => none
    else parseStringBody fuel rest (c :: acc)

/-- Longest prefix of decimal digits, with the rest. -/
def takeDigits : List Char → List Char × List Char
  | c :: cs =>
    if c.isDigit then
      let (ds, rest) := takeDigits cs
      (c :: ds, rest)
    else ([], c :: cs)
  | [] => ([], [])

/-- Number lexeme of the wire format: optional sign, integer part,
optional fraction, optional exponent.  The lexeme is kept verbatim. -/
def parseNumber (cs : List Char) : Option (String × List Char) :=
  let (sign, cs1) :=
    match cs with
    | '-' :: rest => (['-'], rest)
    | _ => (([] : List Char), cs)
  let (intDs, cs2) := takeDigits cs1
  if intDs = [] then none
  else
    let (fracDs, cs3) :=
      match cs2 with
      | '.' :: rest =>
        let (ds, rest2) := takeDigits rest
        if ds = [] then (([] : List Char), cs2) else ('.' :: ds, rest2)
      | _ => ([], cs2)
    if cs3 ≠ cs2 ∧ fracDs = [] then none
    else
      let (expDs, cs4) :=
        match cs3 with
        | e :: rest =>
          if e = 'e' ∨ e = 'E' then
            let (sign2, rest2) :=
              match rest with
              | s :: r2 => if s = '+' ∨ s = '-' then ([s], r2) else (([] : List Char), rest)
              | [] => ([], rest)
            let (ds, rest3) := takeDigits rest2
            if ds = [] then (([] : List Char), cs3) else (e :: (sign2 ++ ds), rest3)
          else ([], cs3)
        | [] => ([], cs3)
      some (String.mk (sign ++ intDs ++ fracDs ++ expDs), cs4)

mutual

/-- Wire-format value reader (models Python json.loads on one value);
fuel-indexed recursive descent. -/
def parseValue : Nat → List Char → Option (Json × List Char)
  | 0, _ => none
  | Nat.succ fuel, cs =>
    match skipWs cs with
    | [] => none
    | 'n' :: 'u' :: 'l' :: 'l' :: rest => some (Json.null, rest)
    | 't' :: 'r' :: 'u' :: 'e' :: rest => some (Json.bool true, rest)
    | 'f' :: 'a' :: 'l' :: 's' :: 'e' :: rest => some (Json.bool false, rest)
    | '"' :: rest =>
      match parseStringBody (rest.length + 1) rest [] with
      | some (s, rest2) => some (Json.str s, rest2)
      | none => none
    | '[' :: rest =>
      match skipWs rest with
      | ']' :: rest2 => some (Json.arr [], rest2)
      | rest2 => parseArrayItems fuel rest2 []
    | '\x7b' :: rest =>
      match skipWs rest with
      | '\x7d' :: rest2 => some (Json.obj [], rest2)
      | rest2 => parseObjItems fuel rest2 []
    | cs2 =>
      match parseNumber cs2 with
      | some (lx, rest) => some (Json.num lx, rest)
      | none => none

/-- Comma-separated array elements, after the opening bracket. -/
def parseArrayItems : Nat → List Char → List Json → Option (Json × List Char)
  | 0, _, _ => none
  | Nat.succ fuel, cs, acc =>
    match parseValue fuel cs with
    | none => none
    | some (v, rest) =>
      match skipWs rest with
      | ',' :: rest2 => parseArrayItems fuel rest2 (acc ++ [v])
      | ']' :: rest2 => some (Json.arr (acc ++ [v]), rest2)
      | _ => none

/-- Comma-separated object members, after the opening brace. -/
def parseObjItems : Nat → List Char → List (String × Json) → Option (Json × List Char)
  | 0, _, _ => none
  | Nat.succ fuel, cs, acc =>
    match skipWs cs with
    | '"' :: rest =>
      match parseStringBody (rest.length + 1) rest [] with
      | none => none
      | some (k, rest2) =>
        match skipWs rest2 with
        | ':' :: rest3 =>
          match parseValue fuel rest3 with
          | none => none
          | some (v, rest4) =>
            match skipWs rest4 with
            | ',' :: rest5 => parseObjItems fuel rest5 (acc ++ [(k, v)])
            | '\x7d' :: rest5 => some (Json.obj (acc ++ [(k, v)]), rest5)
            | _ => none
        | _ => none
    | _ => none

end

/-- Model of Python json.loads: reads one wire-format value and requires
that only whitespace follows; any leftover input or grammar failure is a
JSONDecodeError, modelled as none. -/
def jsonLoads (s : String) : Option Json :=
  match parseValue (2 * s.length + 2) s.toList with
  | some (v, rest) => if skipWs rest = [] then some v else none
  | none => none

example : jsonLoads "\x7b\"a\":1\x7d" = some (Json.obj [("a", Json.num "1")]) := by rfl
example : jsonLoads "not-json" = none := by rfl
example : jsonLoads "\x7b\"a\":2\x7d" = some (Json.obj [("a", Json.num "2")]) := by rfl
example : jsonLoads "[1, true, null]" =
    some (Json.arr [Json.num "1", Json.bool true, Json.null]) := by rfl

/-- Python str.startswith, over code points. -/
def pyStartsWith (s pre : String) : Bool :=
  List.isPrefixOf pre.toList s.toList

/-- Python slicing from a character index to the end, over code points. -/
def pyDrop (s : String) (n : Nat) : String :=
  String.mk (s.toList.drop n)

mutual

/-- Rendering of a parsed wire-format value the way the Python f-string
interpolates it into an assertion message (str of the parsed object). -/
def renderJson : Json → String
  | Json.null => "None"
  | Json.bool true => "True"
  | Json.bool false => "False"
  | Json.num lx => lx
  | Json.str s => "\x27" ++ s ++ "\x27"
  | Json.arr xs => "[" ++ renderJsonList xs ++ "]"
  | Json.obj fs => "\x7b" ++ renderJsonFields fs ++ "\x7d"

/-- Comma-separated rendering of array elements. -/
def renderJsonList : List Json → String
  | [] => ""
  | [x] => renderJson x
  | x :: xs => renderJson x ++ ", " ++ renderJsonList xs

/-- Comma-separated rendering of object members. -/
def renderJsonFields : List (String × Json) → String
  | [] => ""
  | [(k, v)] => "\x27" ++ k ++ "\x27: " ++ renderJson v
  | (k, v) :: fs => "\x27" ++ k ++ "\x27: " ++ renderJson v ++ ", " ++ renderJsonFields fs

end

/-- Server response as seen by the transport layer: status code, reason
phrase and the raw body text (httpx.Response fields used by the code). -/
structure HttpResponse where
  status_code : Nat
  reason_phrase : String
  text : String

/-- Embedding of BaseApi.parse_response_to_json: parse the response body
as wire-format structured data; none models a raised JSONDecodeError. -/
def parse_response_to_json (r : HttpResponse) : Option Json :=
  jsonLoads r.text

/-- Embedding of BaseApi.check_status_code_success: the assert succeeds
exactly when the decimal string of the status code starts with the
character 2; otherwise it raises an AssertionError with the given
message.  Except.error carries the assertion message. -/
def check_status_code_success (r : HttpResponse) : Except String Unit :=
  if pyStartsWith (Nat.repr r.status_code) "2" then Except.ok ()
  else Except.error ("Response code = " ++ Nat.repr r.status_code ++ ", error = "
    ++ r.reason_phrase ++ " " ++ r.text)

/-- Diagnostic payload bound to the local variable named error in
check_status_code: the Python value None, a parsed body, or the fixed
placeholder substituted when the body parse raises JSONDecodeError. -/
inductive DiagPayload where
  | pyNone : DiagPayload
  | parsed (j : Json) : DiagPayload
  | placeholder : DiagPayload

/-- Rendering of the diagnostic payload inside the assertion f-string. -/
def DiagPayload.render : DiagPayload → String
  | DiagPayload.pyNone => "None"
  | DiagPayload.parsed j => renderJson j
  | DiagPayload.placeholder => "Unable to parse error"

/-- Execution trace of check_status_code: the outcome of the assert, and
whether the diagnostic body parse was attempted on the way. -/
structure CheckTrace where
  result : Except String Unit
  parseAttempted : Bool

/-- Diagnostic step at the top of check_status_code: when the status is
200 the diagnostic is the Python value None and no parse happens;
otherwise the body parse is attempted and a JSONDecodeError is replaced
by the placeholder string.  The boolean records whether the parse was
attempted. -/
def diagOfResponse (r : HttpResponse) : DiagPayload × Bool :=
  if r.status_code = 200 then (DiagPayload.pyNone, false)
  else
    match parse_response_to_json r with
    | some j => (DiagPayload.parsed j, true)
    | none => (DiagPayload.placeholder, true)

/-- Embedding of BaseApi.check_status_code with its observable trace.
Mirrors the source: after the diagnostic step, the assert compares the
status with the expected code and on mismatch raises with the message
embedding expected, received and the diagnostic. -/
def check_status_code_traced (r : HttpResponse) (expected_code : Nat) : CheckTrace :=
  { result :=
      if r.status_code = expected_code then Except.ok ()
      else Except.error ("Wrong response code. Expected = " ++ Nat.repr expected_code
        ++ ", received = " ++ Nat.repr r.status_code ++ " | error = "
        ++ (diagOfResponse r).1.render)
    parseAttempted := (diagOfResponse r).2 }

/-- Embedding of BaseApi.check_status_code, outcome only. -/
def check_status_code (r : HttpResponse) (expected_code : Nat) : Except String Unit :=
  (check_status_code_traced r expected_code).result

/-- Header mapping, insertion ordered (a Python dict of strings). -/
abbrev Headers := List (String × String)

/-- Embedding of BaseApi.__init__ header construction: the two default
entries, then the Authorization entry appended when the token is truthy
(present and non-empty). -/
def initHeaders (token : Option String) : Headers :=
  let base : Headers :=
    [("Content-Type", "application/json"), ("Accept-Encoding", "gzip, deflate, br")]
  match token with
  | some t => if t ≠ "" then base ++ [("Authorization", "Bearer " ++ t)] else base
  | none => base

/-- Embedding of the header selection in BaseApi.request, the Python
expression headers or self.headers: a supplied mapping is used only when
it is truthy (non-empty); an omitted or empty mapping falls back to the
session default headers. -/
def requestHeaders (headers : Option Headers) (sessionHeaders : Headers) : Headers :=
  match headers with
  | some h => if h = ([] : Headers) then sessionHeaders else h
  | none => sessionHeaders

/-- Body argument accepted by the body-bearing request helpers, matching
the Python isinstance dispatch in BaseApi.request: a dict, a list, or an
already-serialized string. -/
inductive BodyArg where
  | dict (fields : List (String × Json)) : BodyArg
  | list (elems : List Json) : BodyArg
  | str (s : String) : BodyArg

/-- Channel on which the body leaves BaseApi.request: the json keyword
(the client serializes the structured value as the wire format) or the
data keyword (the value passes through untouched). -/
inductive SentBody where
  | asJson (d : BodyArg) : SentBody
  | asData (d : BodyArg) : SentBody

/-- Decidable membership of the method in the Python tuple
(POST, PUT, PATCH) tested by BaseApi.request. -/
def isBodyVerb (method : String) : Bool :=
  method == "POST" || method == "PUT" || method == "PATCH"

/-- Embedding of the body conversion in BaseApi.request: for POST, PUT
and PATCH a dict or list moves from the data keyword to the json
keyword unchanged, while a string stays on the data keyword; for every
other method the body stays on the data keyword. -/
def prepareBody (method : String) (data : BodyArg) : SentBody :=
  if isBodyVerb method then
    match data with
    | BodyArg.str s => SentBody.asData (BodyArg.str s)
    | d => SentBody.asJson d
  else SentBody.asData data

/-- Embedding of ChatApi.parse_stream_data over the decoded lines of the
streaming response body, in arrival order.  A falsy (empty) line is
skipped; a line must start with the prefix data-colon-space; the line
whose remainder is the [DONE] sentinel is skipped; a remainder that
fails to parse as wire-format data is skipped; parsed chunks are
appended in order. -/
def parse_stream_data (lines : List String) : List Json :=
  let step : List Json → String → List Json := fun chunks line =>
    if line ≠ "" then
      if pyStartsWith line "data: " then
        let json_str := pyDrop line 6
        if json_str ≠ "[DONE]" then
          match jsonLoads json_str with
          | some chunk => chunks ++ [chunk]
          | none => chunks
        else chunks
      else chunks
    else chunks
  lines.foldl step []

/-- Connection pool owned by one session (the httpx.Client): an
allocation identity and whether it has been closed. -/
structure Client where
  id : Nat
  closed : Bool

/-- Modelled from the spec: closing the connection pool releases it and
is safe to repeat (close is idempotent); the httpx client itself is
outside this repository. -/
def clientClose (c : Client) : Client :=
  { c with closed := true }

/-- Embedding of BaseApi.__del__: when the session object carries no
constructed client (hasattr fails) nothing happens; otherwise the client
is closed.  Except.error would model a raised exception; the body never
raises. -/
def delBaseApi (client : Option Client) : Except String (Option Client) :=
  match client with
  | none => Except.ok none
  | some c => Except.ok (some (clientClose c))

/-- Session object built by BaseApi.__init__: its own header dict and
its own freshly-allocated client. -/
structure SessionObj where
  base_url : String
  headers : Headers
  client : Client

/-- Allocation state: the sessions constructed so far, in order, with a
counter supplying fresh client identities. -/
structure World where
  nextId : Nat
  sessions : List SessionObj

/-- World with no sessions. -/
def emptyWorld : World :=
  { nextId := 0, sessions := [] }

/-- Embedding of BaseApi.__init__: builds the default headers, appends
the Authorization entry when a token is given, and allocates a fresh
client seeded with those headers.  Returns the new world and the index
of the new session. -/
def baseApiInit (w : World) (base_url : String) (token : Option String) :
    World × Nat :=
  let hdrs := initHeaders token
  let sess : SessionObj :=
    { base_url := base_url, headers := hdrs,
      client := { id := w.nextId, closed := false } }
  ({ nextId := w.nextId + 1, sessions := w.sessions ++ [sess] }, w.sessions.length)

/-- Python dict assignment on a header mapping: replace the value when
the key is present, otherwise append the pair. -/
def assocSet (h : Headers) (k v : String) : Headers :=
  match h with
  | [] => [(k, v)]
  | (k2, v2) :: rest => if k2 = k then (k, v) :: rest else (k2, v2) :: assocSet rest k v

/-- Mutation of the default headers of the session at index i; any other
session is untouched. -/
def setSessionHeader (w : World) (i : Nat) (k v : String) : World :=
  match w.sessions.get? i with
  | none => w
  | some s => { w with sessions := w.sessions.set i { s with headers := assocSet s.headers k v } }

/-- Header dict of the session at index i (empty if out of range). -/
def sessionHeaders (w : World) (i : Nat) : Headers :=
  match w.sessions.get? i with
  | some s => s.headers
  | none => []

/-- Client identity of the session at index i. -/
def sessionClientId (w : World) (i : Nat) : Nat :=
  match w.sessions.get? i with
  | some s => s.client.id
  | none => 0

/-- Authorization value carried by a header mapping, if any. -/
def lookupAuth (h : Headers) : Option String :=
  List.lookup "Authorization" h

/-- World after constructing two sessions with the two given tokens. -/
def twoSessions (t1 t2 : String) : World :=
  (baseApiInit (baseApiInit emptyWorld "https://u" (some t1)).1 "https://u" (some t2)).1

/-- Authorization value recorded by initHeaders: present with the Bearer
prefix exactly when the token is non-empty. -/
theorem lookupAuth_initHeaders (t : String) :
    lookupAuth (initHeaders (some t))
      = if t = "" then none else some ("Bearer " ++ t) := by
  by_cases h : t = ""
  · subst h
    rfl
  · rw [if_neg h]
    have hh : initHeaders (some t)
        = [("Content-Type", "application/json"),
           ("Accept-Encoding", "gzip, deflate, br"),
           ("Authorization", "Bearer " ++ t)] := by
      simp [initHeaders, h]
    rw [lookupAuth, hh]
    rfl

/-- Appending after the Bearer prefix is injective. -/
theorem bearer_append_inj {t1 t2 : String}
    (h : "Bearer " ++ t1 = "Bearer " ++ t2) : t1 = t2 := by
  have hd := congrArg String.data h
  rw [String.data_append, String.data_append] at hd
  exact String.ext (List.append_cancel_left hd)

/-- C1: check_status_code returns silently exactly when the received
status equals the expected code; on any mismatch it raises an
AssertionError whose message embeds the expected code and the received
code in decimal. -/
theorem C1_check_status_code_iff_and_message (r : HttpResponse) (c : Nat) :
    (check_status_code r c = Except.ok () ↔ r.status_code = c) ∧
    (r.status_code ≠ c → check_status_code r c
      = Except.error ("Wrong response code. Expected = " ++ Nat.repr c
        ++ ", received = " ++ Nat.repr r.status_code ++ " | error = "
        ++ (diagOfResponse r).1.render)) := by
  constructor
  · constructor
    · intro h
      by_contra hne
      simp [check_status_code, check_status_code_traced, hne] at h
    · intro h
      simp [check_status_code, check_status_code_traced, h]
  · intro hne
    simp [check_status_code, check_status_code_traced, hne]

/-- Witness for C1 at a concrete mismatching response. -/
theorem C1_witness :
    (check_status_code ⟨404, "Not Found", "nope"⟩ 200 = Except.ok () ↔ (404 : Nat) = 200) ∧
    check_status_code ⟨404, "Not Found", "nope"⟩ 200
      = Except.error ("Wrong response code. Expected = " ++ Nat.repr 200
        ++ ", received = " ++ Nat.repr 404 ++ " | error = "
        ++ (diagOfResponse ⟨404, "Not Found", "nope"⟩).1.render) :=
  ⟨(C1_check_status_code_iff_and_message ⟨404, "Not Found", "nope"⟩ 200).1,
   (C1_check_status_code_iff_and_message ⟨404, "Not Found", "nope"⟩ 200).2 (by decide)⟩

/-- C2: on the synthetic stream the decoder yields exactly the two
parsed chunks in order; the blank line, the malformed line and the
[DONE] sentinel are discarded, and the well-formed line after the
sentinel is still decoded. -/
theorem C2_parse_stream_data_concrete :
    parse_stream_data
      ["data: \x7b\"a\":1\x7d", "", "data: not-json", "data: [DONE]", "data: \x7b\"a\":2\x7d"]
      = [Json.obj [("a", Json.num "1")], Json.obj [("a", Json.num "2")]] := by
  rfl

/-- C3 counterexample: expecting 400 and receiving 400 succeeds, but the
diagnostic parse IS attempted on this matching non-200 response,
contradicting the claim that the parse happens only on mismatch. -/
theorem C3_counterexample :
    (check_status_code_traced ⟨400, "Bad Request", "\x7b\"error\":\"bad\"\x7d"⟩ 400).result
      = Except.ok () ∧
    (check_status_code_traced ⟨400, "Bad Request", "\x7b\"error\":\"bad\"\x7d"⟩ 400).parseAttempted
      = true := by
  constructor <;> rfl

/-- C3 amended: a non-200 response matching the expected code succeeds
silently, but the diagnostic parse is attempted on every non-200
response, matching or not; a parse failure is swallowed and never
affects the outcome. -/
theorem C3_amended_nonmismatch_parse (r : HttpResponse) (c : Nat)
    (h200 : r.status_code ≠ 200) (hm : r.status_code = c) :
    (check_status_code_traced r c).result = Except.ok () ∧
    (check_status_code_traced r c).parseAttempted = true := by
  refine ⟨by simp [check_status_code_traced, hm], ?_⟩
  cases hp : parse_response_to_json r <;>
    simp [check_status_code_traced, diagOfResponse, h200, hp]

/-- Witness for C3 amended at a concrete matching 404 response. -/
theorem C3_amended_witness :
    (check_status_code_traced ⟨404, "Not Found", "x"⟩ 404).result = Except.ok () ∧
    (check_status_code_traced ⟨404, "Not Found", "x"⟩ 404).parseAttempted = true :=
  C3_amended_nonmismatch_parse ⟨404, "Not Found", "x"⟩ 404 (by decide) (by decide)

/-- C4: on a mismatching non-200 response whose body is not parseable,
check_status_code still raises the status-mismatch assertion, with the
fixed placeholder as the diagnostic payload; the parse failure never
propagates in its place. -/
theorem C4_placeholder_on_unparseable (r : HttpResponse) (c : Nat)
    (h200 : r.status_code ≠ 200) (hne : r.status_code ≠ c)
    (hp : parse_response_to_json r = none) :
    check_status_code r c
      = Except.error ("Wrong response code. Expected = " ++ Nat.repr c
        ++ ", received = " ++ Nat.repr r.status_code ++ " | error = "
        ++ "Unable to parse error") := by
  simp [check_status_code, check_status_code_traced, diagOfResponse, h200, hne, hp,
    DiagPayload.render]

/-- Witness for C4 at a concrete 500 response with a non-structured body. -/
theorem C4_witness :
    check_status_code ⟨500, "Internal Server Error", "not-json"⟩ 200
      = Except.error ("Wrong response code. Expected = " ++ Nat.repr 200
        ++ ", received = " ++ Nat.repr 500 ++ " | error = "
        ++ "Unable to parse error") :=
  C4_placeholder_on_unparseable ⟨500, "Internal Server Error", "not-json"⟩ 200
    (by decide) (by decide) (by rfl)

/-- C5: check_status_code_success returns silently exactly when the
decimal string of the status code starts with the character 2, and
otherwise raises with a message embedding the status code and the
reason phrase. -/
theorem C5_check_success_iff (r : HttpResponse) :
    (check_status_code_success r = Except.ok ()
      ↔ pyStartsWith (Nat.repr r.status_code) "2" = true) ∧
    (pyStartsWith (Nat.repr r.status_code) "2" = false →
      check_status_code_success r
        = Except.error ("Response code = " ++ Nat.repr r.status_code ++ ", error = "
          ++ r.reason_phrase ++ " " ++ r.text)) := by
  constructor
  · constructor
    · intro h
      by_contra hne
      simp only [Bool.not_eq_true] at hne
      simp [check_status_code_success, hne] at h
    · intro h
      simp [check_status_code_success, h]
  · intro h
    simp [check_status_code_success, h]

/-- Witness for C5: 200 is accepted, 404 is rejected with the embedded
status and reason phrase. -/
theorem C5_witness :
    check_status_code_success ⟨200, "OK", ""⟩ = Except.ok () ∧
    check_status_code_success ⟨404, "Not Found", "nf"⟩
      = Except.error ("Response code = " ++ Nat.repr 404 ++ ", error = "
        ++ "Not Found" ++ " " ++ "nf") :=
  ⟨(C5_check_success_iff ⟨200, "OK", ""⟩).1.mpr (by decide),
   (C5_check_success_iff ⟨404, "Not Found", "nf"⟩).2 (by decide)⟩

/-- C6: for the body-bearing verbs a dict or list body moves to the json
channel (serialized as the wire format by the client), and a
pre-serialized string body stays on the data channel unmodified. -/
theorem C6_body_serialization (m : String)
    (hm : m = "POST" ∨ m = "PUT" ∨ m = "PATCH") :
    (∀ fs, prepareBody m (BodyArg.dict fs) = SentBody.asJson (BodyArg.dict fs)) ∧
    (∀ es, prepareBody m (BodyArg.list es) = SentBody.asJson (BodyArg.list es)) ∧
    (∀ s, prepareBody m (BodyArg.str s) = SentBody.asData (BodyArg.str s)) := by
  have hv : isBodyVerb m = true := by
    rcases hm with h | h | h <;> simp [isBodyVerb, h]
  exact ⟨fun fs => by simp [prepareBody, hv],
         fun es => by simp [prepareBody, hv],
         fun s => by simp [prepareBody, hv]⟩

/-- Witness for C6 with the POST verb. -/
theorem C6_witness :
    prepareBody "POST" (BodyArg.dict [("k", Json.str "v")])
      = SentBody.asJson (BodyArg.dict [("k", Json.str "v")]) ∧
    prepareBody "POST" (BodyArg.str "raw") = SentBody.asData (BodyArg.str "raw") :=
  ⟨(C6_body_serialization "POST" (Or.inl rfl)).1 [("k", Json.str "v")],
   (C6_body_serialization "POST" (Or.inl rfl)).2.2 "raw"⟩

/-- C7 counterexample: a supplied empty header mapping is NOT used
verbatim as the complete header set; the session default headers are
sent instead, and they are non-empty. -/
theorem C7_counterexample :
    requestHeaders (some []) (initHeaders (some "token123"))
      = initHeaders (some "token123") ∧
    initHeaders (some "token123") ≠ ([] : Headers) := by
  constructor
  · rfl
  · intro h
    simp [initHeaders] at h

/-- C7 amended: an omitted headers argument sends the session default
headers unchanged, and a supplied NON-EMPTY mapping is used verbatim as
the complete header set with no merging; a supplied empty mapping is
falsy in Python and falls back to the defaults. -/
theorem C7_amended_headers_verbatim (h d : Headers) (hne : h ≠ []) :
    requestHeaders (some h) d = h ∧ requestHeaders none d = d := by
  simp [requestHeaders, hne]

/-- Witness for C7 amended at a concrete non-empty override. -/
theorem C7_amended_witness :
    requestHeaders (some [("X-Custom", "y")]) (initHeaders none) = [("X-Custom", "y")] ∧
    requestHeaders none (initHeaders none) = initHeaders none :=
  C7_amended_headers_verbatim [("X-Custom", "y")] (initHeaders none) (by simp)

/-- C8: two sessions built with distinct tokens carry different
Authorization values, own distinct connection pools, and mutating the
default headers of the first leaves the headers of the second unchanged. -/
theorem C8_session_independence (t1 t2 : String) (hne : t1 ≠ t2) :
    lookupAuth (sessionHeaders (twoSessions t1 t2) 0)
      ≠ lookupAuth (sessionHeaders (twoSessions t1 t2) 1) ∧
    sessionClientId (twoSessions t1 t2) 0 ≠ sessionClientId (twoSessions t1 t2) 1 ∧
    ∀ k v, sessionHeaders (setSessionHeader (twoSessions t1 t2) 0 k v) 1
      = sessionHeaders (twoSessions t1 t2) 1 := by
  refine ⟨?_, ?_, fun k v => rfl⟩
  case refine_2 =>
    show (0 : Nat) ≠ 1
    decide
  show lookupAuth (initHeaders (some t1)) ≠ lookupAuth (initHeaders (some t2))
  rw [lookupAuth_initHeaders, lookupAuth_initHeaders]
  by_cases h1 : t1 = "" <;> by_cases h2 : t2 = ""
  · exact absurd (h1.trans h2.symm) hne
  · simp [h1, h2]
  · simp [h1, h2]
  · simp only [h1, h2, if_neg]
    intro h
    exact hne (bearer_append_inj (Option.some.inj h))

/-- Witness for C8 at two concrete distinct tokens. -/
theorem C8_witness :
    lookupAuth (sessionHeaders (twoSessions "alpha" "beta") 0)
      ≠ lookupAuth (sessionHeaders (twoSessions "alpha" "beta") 1) ∧
    sessionClientId (twoSessions "alpha" "beta") 0
      ≠ sessionClientId (twoSessions "alpha" "beta") 1 ∧
    ∀ k v, sessionHeaders (setSessionHeader (twoSessions "alpha" "beta") 0 k v) 1
      = sessionHeaders (twoSessions "alpha" "beta") 1 :=
  C8_session_independence "alpha" "beta" (by decide)

/-- C9: session teardown never raises and is idempotent: a first call
yields a state on which a second call is a no-op, including when the
session carries no constructed client. -/
theorem C9_del_idempotent (cl : Option Client) :
    ∃ cl2, delBaseApi cl = Except.ok cl2 ∧ delBaseApi cl2 = Except.ok cl2 := by
  cases cl with
  | none => exact ⟨none, rfl, rfl⟩
  | some c => exact ⟨some (clientClose c), rfl, rfl⟩

/-- C10: a supplied empty header mapping is treated exactly like an
omitted argument: the session default headers are sent, so an explicit
empty override cannot clear the headers. -/
theorem C10_empty_headers_fallback (d : Headers) :
    requestHeaders (some []) d = requestHeaders none d ∧
    requestHeaders (some []) d = d := by
  simp [requestHeaders]
